import Mathlib

/-!
Shallow embedding of `_zopfli/_zopflimodule.c` (zopflipy).

The module defines two session objects:

* `Compressor` (`ZopfliCompressor`, the whole-buffer compressor): accumulates
  input into a byte buffer and, on `flush`, calls the external `ZopfliCompress`
  once — or twice when block-splitting mode is 3 — keeping the smaller result.
* `Deflater` (`ZopfliDeflater`, the streaming part encoder): keeps a growing
  compressed output buffer, a bit pointer, and a single pending input chunk;
  each `compress` call encodes the previously pending chunk as a non-final
  deflate block via the external `ZopfliDeflatePart` and returns only the
  newly produced bytes, a `flush` call encodes the pending chunk as the final
  block.

Byte strings are `List Nat`.  The external zopfli encoders (`ZopfliCompress`,
`ZopfliDeflatePart`) are not part of this repository's source; theorems take
them as function parameters.  Fallible host-level calls (`PyObject_GetBuffer`)
are modelled by an injected success flag.
-/

namespace Zopfli

/-- Errors surfaced through the Python C API by `_zopflimodule.c`.  One
constructor per distinct error: `unknownFormat` is `ValueError("unknown
format")`, `compressorFlushed` is `ValueError("Compressor has been flushed")`,
`deflaterFlushed` is `ValueError("Deflater has been flushed")`,
`repeatedFlush` is `ValueError("repeated call to flush()")`, and
`bufferError` stands for a failing host buffer acquisition
(`PyObject_GetBuffer`). -/
inductive PyErr where
  | unknownFormat
  | compressorFlushed
  | deflaterFlushed
  | repeatedFlush
  | bufferError
deriving DecidableEq

deriving instance DecidableEq for Except

/-- The `ZopfliOptions` struct of the external zopfli library
(`zopfli/zopfli.h`): verbosity, iteration count, block-splitting mode,
last-block splitting flag, and maximum block count. -/
structure ZopfliOptions where
  verbose : Int
  numiterations : Int
  blocksplitting : Int
  blocksplittinglast : Int
  blocksplittingmax : Int
deriving DecidableEq

/-- Modelled from the spec: `ZopfliInitOptions` of the external zopfli
library, which fills in the defaults the spec states in its configuration
surface — iteration count 15, block-splitting mode "on" (1), maximum block
count 15, verbosity off — with last-block splitting off. -/
def ZopfliInitOptions : ZopfliOptions :=
  { verbose := 0
    numiterations := 15
    blocksplitting := 1
    blocksplittinglast := 0
    blocksplittingmax := 15 }

/-- Modelled from the spec: the gzip member of the container-format
enumeration of the external zopfli library. -/
def ZOPFLI_FORMAT_GZIP : Int := 0

/-- Modelled from the spec: the zlib member of the container-format
enumeration of the external zopfli library. -/
def ZOPFLI_FORMAT_ZLIB : Int := 1

/-- Modelled from the spec: the raw-deflate member of the container-format
enumeration of the external zopfli library. -/
def ZOPFLI_FORMAT_DEFLATE : Int := 2

/-- State of a `ZopfliCompressor` object: the container format, the options,
the accumulated input (`self->data`, an `io.BytesIO`), and the flushed flag. -/
structure Compressor where
  format : Int
  options : ZopfliOptions
  data : List Nat
  flushed : Bool
deriving DecidableEq

/-- `Compressor_init`: parse arguments over the `ZopfliInitOptions` defaults,
reject an unrecognized format with `ValueError("unknown format")`, silently
replace an out-of-range block-splitting value (`< 0` or `> 3`) with 1, and
start with an empty accumulation buffer and the flushed flag clear. -/
def Compressor_init (format : Int) (verbose : Bool)
    (numiterations blocksplitting blocksplittingmax : Int) :
    Except PyErr Compressor :=
  let options : ZopfliOptions :=
    { ZopfliInitOptions with
        numiterations := numiterations
        blocksplitting := blocksplitting
        blocksplittingmax := blocksplittingmax }
  if format = ZOPFLI_FORMAT_GZIP ∨ format = ZOPFLI_FORMAT_ZLIB ∨
      format = ZOPFLI_FORMAT_DEFLATE then
    let options := { options with verbose := if verbose then 1 else 0 }
    let options :=
      if options.blocksplitting < 0 ∨ 3 < options.blocksplitting then
        { options with blocksplitting := 1 }
      else options
    .ok { format := format, options := options, data := [], flushed := false }
  else
    .error .unknownFormat

/-- `Compressor_compress`: fail when already flushed, otherwise append the
supplied bytes to the accumulation buffer and return the empty byte string.
Every operation returns its result together with the post-call state. -/
def Compressor_compress (self : Compressor) (data : List Nat) :
    Except PyErr (List Nat) × Compressor :=
  if self.flushed then
    (.error .compressorFlushed, self)
  else
    (.ok [], { self with data := self.data ++ data })

/-- One invocation of the external `ZopfliCompress`, recording the options,
format, and input it was handed. -/
structure EncCall where
  options : ZopfliOptions
  format : Int
  input : List Nat
deriving DecidableEq

/-- `Compressor_flush`, parameterized by the external `ZopfliCompress`
(a pure function of options, format, and input).  Fail when already flushed.
When block-splitting mode is 3, run the encoder twice over the accumulated
buffer — first with `blocksplitting = 1, blocksplittinglast = 0`, then with
`blocksplittinglast = 1` — and keep `out` when `outsize < outsize2`,
otherwise `out2`.  Otherwise run the encoder once with the stored options.
Set the flushed flag.  The third component records the encoder invocations
made by the call, in order. -/
def Compressor_flush (enc : ZopfliOptions → Int → List Nat → List Nat)
    (self : Compressor) :
    Except PyErr (List Nat) × Compressor × List EncCall :=
  if self.flushed then
    (.error .repeatedFlush, self, [])
  else if self.options.blocksplitting = 3 then
    let opts1 :=
      { self.options with blocksplitting := 1, blocksplittinglast := 0 }
    let out1 := enc opts1 self.format self.data
    let opts2 := { opts1 with blocksplittinglast := 1 }
    let out2 := enc opts2 self.format self.data
    let calls := [⟨opts1, self.format, self.data⟩,
                  ⟨opts2, self.format, self.data⟩]
    if out1.length < out2.length then
      (.ok out1, { self with options := opts2, flushed := true }, calls)
    else
      (.ok out2, { self with options := opts2, flushed := true }, calls)
  else
    (.ok (enc self.options self.format self.data),
     { self with flushed := true },
     [⟨self.options, self.format, self.data⟩])

/-- State of a `ZopfliDeflater` object: the options, the bit pointer `bp`,
the growing compressed output buffer `out` (its length is `outsize`), the
pending input chunk `data` (`none` models a NULL `self->data`), and the
flushed flag. -/
structure Deflater where
  options : ZopfliOptions
  bp : Nat
  out : List Nat
  data : Option (List Nat)
  flushed : Bool
deriving DecidableEq

/-- `Deflater_init`: parse arguments over the `ZopfliInitOptions` defaults;
when the block-splitting value equals 2, store `blocksplitting = 1` with
`blocksplittinglast = 1`; start with bit pointer 0, an empty output buffer,
no pending chunk, and the flushed flag clear. -/
def Deflater_init (verbose : Bool)
    (numiterations blocksplitting blocksplittingmax : Int) : Deflater :=
  let options : ZopfliOptions :=
    { ZopfliInitOptions with
        numiterations := numiterations
        blocksplitting := blocksplitting
        blocksplittingmax := blocksplittingmax
        verbose := if verbose then 1 else 0 }
  let options :=
    if options.blocksplitting = 2 then
      { options with blocksplitting := 1, blocksplittinglast := 1 }
    else options
  { options := options, bp := 0, out := [], data := none, flushed := false }

/-- The external `ZopfliDeflatePart`: given options, block type, final flag,
the input chunk, the bit pointer and the output buffer, it returns the new
bit pointer and the extended output buffer.  `_zopflimodule.c` always passes
block type 2 and the whole pending chunk as the input range. -/
def DeflatePartFn : Type :=
  ZopfliOptions → Nat → Bool → List Nat → Nat → List Nat → Nat × List Nat

/-- `deflate_part`, parameterized by the external `ZopfliDeflatePart` and by
the outcome `gbOk` of the host buffer acquisition (`PyObject_GetBuffer`).
With no pending chunk it returns the empty byte string and leaves the state
alone.  Otherwise, with `pos` the output-buffer length before the call and
`outsize` its length after, it returns `outsize - 1` bytes from offset `pos`
(non-final, `pos = 0`), `outsize - pos` bytes from offset `pos - 1`
(non-final, `pos > 0`), `outsize` bytes from offset `pos` (final, `pos = 0`),
or `outsize - pos + 1` bytes from offset `pos - 1` (final, `pos > 0`), and
clears the pending chunk.  A failing buffer acquisition returns an error,
clearing the pending chunk but leaving the rest of the state alone. -/
def deflate_part (encPart : DeflatePartFn) (gbOk : Bool) (self : Deflater)
    (final : Bool) : Except PyErr (List Nat) × Deflater :=
  match self.data with
  | none => (.ok [], self)
  | some input =>
    if gbOk then
      let pos := self.out.length
      let r := encPart self.options 2 final input self.bp self.out
      let outsize := r.2.length
      let off_n : Nat × Nat :=
        if !final then
          if pos = 0 then (pos, outsize - 1) else (pos - 1, outsize - pos)
        else
          if pos = 0 then (pos, outsize) else (pos - 1, outsize - pos + 1)
      (.ok ((r.2.drop off_n.1).take off_n.2),
       { self with bp := r.1, out := r.2, data := none })
    else
      (.error .bufferError, { self with data := none })

/-- `Deflater_compress`: fail when already flushed; otherwise encode the
pending chunk (if any) as a non-final block via `deflate_part` and, on
success, record the supplied bytes as the new pending chunk. -/
def Deflater_compress (encPart : DeflatePartFn) (gbOk : Bool)
    (self : Deflater) (data : List Nat) :
    Except PyErr (List Nat) × Deflater :=
  if self.flushed then
    (.error .deflaterFlushed, self)
  else
    match deflate_part encPart gbOk self false with
    | (.ok v, s) => (.ok v, { s with data := some data })
    | (.error e, s) => (.error e, s)

/-- `Deflater_flush`: fail when already flushed; otherwise set the flushed
flag first, then encode the pending chunk (if any) as the final block via
`deflate_part`. -/
def Deflater_flush (encPart : DeflatePartFn) (gbOk : Bool)
    (self : Deflater) : Except PyErr (List Nat) × Deflater :=
  if self.flushed then
    (.error .repeatedFlush, self)
  else
    deflate_part encPart gbOk { self with flushed := true } true

/-- The half-open byte range `[start, stop)` of a buffer, the form in which
the spec states the streaming trim rule. -/
def byteSlice (buf : List Nat) (start stop : Nat) : List Nat :=
  (buf.take stop).drop start

/-- The options of the first try-both trial in `Compressor_flush`:
block splitting on, last-block splitting off. -/
def tryBothFirst (o : ZopfliOptions) : ZopfliOptions :=
  { o with blocksplitting := 1, blocksplittinglast := 0 }

/-- The options of the second try-both trial in `Compressor_flush`:
block splitting on, last-block splitting on. -/
def tryBothSecond (o : ZopfliOptions) : ZopfliOptions :=
  { o with blocksplitting := 1, blocksplittinglast := 1 }

/-- A trivial concrete `ZopfliCompress` stand-in: returns its input. -/
def encConst : ZopfliOptions → Int → List Nat → List Nat := fun _ _ d => d

/-- A trivial concrete `ZopfliDeflatePart` stand-in: leaves the bit pointer
and output buffer alone. -/
def encPartConst : DeflatePartFn := fun _ _ _ _ bp out => (bp, out)

/-- A concrete `ZopfliDeflatePart` stand-in that grows the output buffer
from `[10, 20]` to `[10, 20, 30]`, exercising the boundary-byte trim rule. -/
def boundaryPartEnc : DeflatePartFn := fun _ _ _ _ bp _ => (bp, [10, 20, 30])

/-- A concrete streaming-encoder state with a non-empty output buffer
(`pos = 2`) and a pending chunk. -/
def boundaryDeflater : Deflater :=
  { options := ZopfliInitOptions
    bp := 3
    out := [10, 20]
    data := some [7]
    flushed := false }

/-- A concrete `ZopfliCompress` stand-in whose two try-both trial results
have equal length but different contents: `[0]` when last-block splitting
is disabled, `[1]` when it is enabled. -/
def tryBothTieEnc : ZopfliOptions → Int → List Nat → List Nat :=
  fun o _ _ => if o.blocksplittinglast = 0 then [0] else [1]

/-- A concrete whole-buffer compressor state in block-splitting mode 3. -/
def tryBothTieCompressor : Compressor :=
  { format := 2
    options := { ZopfliInitOptions with blocksplitting := 3 }
    data := [5]
    flushed := false }

/-- A concrete streaming-encoder state with a pending chunk. -/
def pendingDeflater : Deflater :=
  { options := ZopfliInitOptions
    bp := 0
    out := []
    data := some [1, 2]
    flushed := false }

/-- A concrete whole-buffer compressor state that has been flushed. -/
def flushedCompressor : Compressor :=
  { format := 2, options := ZopfliInitOptions, data := [1], flushed := true }

/-- A concrete streaming-encoder state that has been flushed. -/
def flushedDeflater : Deflater :=
  { options := ZopfliInitOptions
    bp := 0
    out := [3]
    data := none
    flushed := true }

/-- A freshly constructed streaming encoder: no pending chunk, not
flushed. -/
def freshDeflater : Deflater := Deflater_init false 15 1 15

/-- C9: constructing the whole-buffer compressor with a container-format
value that is none of gzip, zlib, or raw deflate fails with the
invalid-format error (`ValueError("unknown format")`); construction is
aborted and no session value is produced. -/
theorem C9_unknown_format (format : Int) (verbose : Bool)
    (numiterations blocksplitting blocksplittingmax : Int)
    (h1 : format ≠ ZOPFLI_FORMAT_GZIP) (h2 : format ≠ ZOPFLI_FORMAT_ZLIB)
    (h3 : format ≠ ZOPFLI_FORMAT_DEFLATE) :
    Compressor_init format verbose numiterations blocksplitting
      blocksplittingmax = .error .unknownFormat := by
  simp [Compressor_init, h1, h2, h3]

/-- C9 witness: format 5 is rejected. -/
theorem C9_unknown_format_witness :
    Compressor_init 5 false 15 1 15 = .error .unknownFormat :=
  C9_unknown_format 5 false 15 1 15 (by decide) (by decide) (by decide)

/-- C10: the streaming encoder stores block-splitting value 2 as
`blocksplitting = 1` with `blocksplittinglast = 1`; every other supplied
value — including negative values and values greater than 3 — is stored
unchanged with `blocksplittinglast` left at its default 0. -/
theorem C10_deflater_blocksplitting (verbose : Bool)
    (numiterations blocksplitting blocksplittingmax : Int) :
    (Deflater_init verbose numiterations blocksplitting
        blocksplittingmax).options.blocksplitting =
      (if blocksplitting = 2 then 1 else blocksplitting) ∧
    (Deflater_init verbose numiterations blocksplitting
        blocksplittingmax).options.blocksplittinglast =
      (if blocksplitting = 2 then 1 else 0) := by
  by_cases h : blocksplitting = 2 <;> simp [Deflater_init, ZopfliInitOptions, h]

/-- C5 counterexample: constructing the streaming encoder with
block-splitting mode 3 stores the options unchanged — `blocksplitting`
stays 3 and `blocksplittinglast` stays at its default 0 — refuting the
claim that the stored options differ from the supplied value for mode 3. -/
theorem C5_counterexample :
    (Deflater_init false 15 3 15).options.blocksplitting = 3 ∧
    (Deflater_init false 15 3 15).options.blocksplittinglast = 0 := by
  decide

/-- C5 (amended): the streaming encoder stores block-splitting mode 3
unchanged (`blocksplitting = 3`, `blocksplittinglast = 0`); the
reinterpretation described by the spec is applied instead to mode 2,
which is stored as `blocksplitting = 1` with `blocksplittinglast = 1`
(split every block, last block included). -/
theorem C5_deflater_try_both_stored (verbose : Bool)
    (numiterations blocksplittingmax : Int) :
    (Deflater_init verbose numiterations 3
        blocksplittingmax).options.blocksplitting = 3 ∧
    (Deflater_init verbose numiterations 3
        blocksplittingmax).options.blocksplittinglast = 0 ∧
    (Deflater_init verbose numiterations 2
        blocksplittingmax).options.blocksplitting = 1 ∧
    (Deflater_init verbose numiterations 2
        blocksplittingmax).options.blocksplittinglast = 1 := by
  simp [Deflater_init, ZopfliInitOptions]

/-- C4 counterexample: constructing the streaming encoder with the
out-of-range block-splitting value 4 stores 4 unchanged, not the claimed
normalized value 1. -/
theorem C4_counterexample :
    (Deflater_init false 15 4 15).options.blocksplitting = 4 ∧
    (Deflater_init false 15 4 15).options.blocksplitting ≠ 1 := by
  decide

/-- C4 (amended): construction with an out-of-range block-splitting value
(negative or greater than 3) fails for neither session type; the
whole-buffer compressor silently normalizes the value to 1, while the
streaming encoder stores the out-of-range value unchanged. -/
theorem C4_out_of_range (format : Int) (verbose : Bool)
    (numiterations blocksplitting blocksplittingmax : Int)
    (hfmt : format = ZOPFLI_FORMAT_GZIP ∨ format = ZOPFLI_FORMAT_ZLIB ∨
      format = ZOPFLI_FORMAT_DEFLATE)
    (hbs : blocksplitting < 0 ∨ 3 < blocksplitting) :
    Compressor_init format verbose numiterations blocksplitting
        blocksplittingmax =
      .ok { format := format
            options := { verbose := if verbose then 1 else 0
                         numiterations := numiterations
                         blocksplitting := 1
                         blocksplittinglast := 0
                         blocksplittingmax := blocksplittingmax }
            data := []
            flushed := false } ∧
    (Deflater_init verbose numiterations blocksplitting
        blocksplittingmax).options.blocksplitting = blocksplitting := by
  have h2 : blocksplitting ≠ 2 := by omega
  constructor
  · simp [Compressor_init, ZopfliInitOptions, hfmt, hbs]
  · simp [Deflater_init, ZopfliInitOptions, h2]

/-- C4 witness: format raw deflate (2) with block-splitting 4. -/
theorem C4_out_of_range_witness :
    Compressor_init 2 false 15 4 15 =
      .ok { format := 2
            options := { verbose := 0
                         numiterations := 15
                         blocksplitting := 1
                         blocksplittinglast := 0
                         blocksplittingmax := 15 }
            data := []
            flushed := false } ∧
    (Deflater_init false 15 4 15).options.blocksplitting = 4 := by
  have h := C4_out_of_range 2 false 15 4 15 (by decide) (by decide)
  revert h
  decide

/-- C7: on a finalized (flushed) session of either type, an append call
fails with the session-finalized error and a finalize call fails with the
repeated-finalize error, and each such failing call returns the session
state unchanged — hence every later repetition fails with the same error
kind and the session stays in its finalized, inert state. -/
theorem C7_finalized_inert (enc : ZopfliOptions → Int → List Nat → List Nat)
    (encPart : DeflatePartFn) (gbOk : Bool) (c : Compressor) (d : Deflater)
    (cdata ddata : List Nat) (hc : c.flushed = true) (hd : d.flushed = true) :
    Compressor_compress c cdata = (.error .compressorFlushed, c) ∧
    Compressor_flush enc c = (.error .repeatedFlush, c, []) ∧
    Deflater_compress encPart gbOk d ddata = (.error .deflaterFlushed, d) ∧
    Deflater_flush encPart gbOk d = (.error .repeatedFlush, d) := by
  simp [Compressor_compress, Compressor_flush, Deflater_compress,
    Deflater_flush, hc, hd]

/-- C7 witness: a flushed compressor and a flushed streaming encoder both
reject further calls and keep their state. -/
theorem C7_finalized_inert_witness :
    Compressor_compress flushedCompressor [7] =
      (.error .compressorFlushed, flushedCompressor) ∧
    Compressor_flush encConst flushedCompressor =
      (.error .repeatedFlush, flushedCompressor, []) ∧
    Deflater_compress encPartConst true flushedDeflater [8] =
      (.error .deflaterFlushed, flushedDeflater) ∧
    Deflater_flush encPartConst true flushedDeflater =
      (.error .repeatedFlush, flushedDeflater) := by
  have h := C7_finalized_inert encConst encPartConst true flushedCompressor
    flushedDeflater [7] [8] (by decide) (by decide)
  revert h
  decide

/-- C8: on the streaming encoder with no pending chunk and not yet
flushed, an append call returns the empty byte string and records the
supplied bytes as the pending chunk, and a finalize call (in particular on
a session that never appended) also returns the empty byte string. -/
theorem C8_no_pending (encPart : DeflatePartFn) (gbOk : Bool)
    (self : Deflater) (chunk : List Nat)
    (hfl : self.flushed = false) (hdata : self.data = none) :
    Deflater_compress encPart gbOk self chunk =
      (.ok [], { self with data := some chunk }) ∧
    Deflater_flush encPart gbOk self =
      (.ok [], { self with flushed := true }) := by
  obtain ⟨o, b, u, d, f⟩ := self
  simp only at hfl hdata
  subst hfl
  subst hdata
  simp [Deflater_compress, Deflater_flush, deflate_part]

/-- C8 witness: a freshly constructed streaming encoder. -/
theorem C8_no_pending_witness :
    Deflater_compress encPartConst true freshDeflater [4, 5] =
      (.ok [], { freshDeflater with data := some [4, 5] }) ∧
    Deflater_flush encPartConst true freshDeflater =
      (.ok [], { freshDeflater with flushed := true }) := by
  have h := C8_no_pending encPartConst true freshDeflater [4, 5]
    (by decide) (by decide)
  revert h
  decide

/-- C3 counterexample: the two try-both trial results are `[0]` (last-block
splitting off) and `[1]` (last-block splitting on), of equal length; the
claim says the first result is kept on a tie, but flush returns `[1]`, the
second result. -/
theorem C3_counterexample :
    (Compressor_flush tryBothTieEnc tryBothTieCompressor).1 = .ok [1] ∧
    tryBothTieEnc (tryBothFirst tryBothTieCompressor.options)
      tryBothTieCompressor.format tryBothTieCompressor.data = [0] ∧
    tryBothTieEnc (tryBothSecond tryBothTieCompressor.options)
      tryBothTieCompressor.format tryBothTieCompressor.data = [1] ∧
    ([0] : List Nat).length = ([1] : List Nat).length ∧
    (Except.ok [1] : Except PyErr (List Nat)) ≠ .ok [0] := by
  decide

/-- C3 (amended): with block-splitting mode 3 on an unflushed session,
flush invokes the external encoder exactly twice over the accumulated
buffer — first with block splitting on and last-block splitting off, then
with last-block splitting on — and returns the first result when it is
strictly smaller, otherwise the second (so equal lengths keep the second
result); the returned result's length is the minimum of the two trial
lengths. -/
theorem C3_try_both (enc : ZopfliOptions → Int → List Nat → List Nat)
    (self : Compressor) (hfl : self.flushed = false)
    (hbs : self.options.blocksplitting = 3) :
    Compressor_flush enc self =
      (.ok (if (enc (tryBothFirst self.options) self.format self.data).length <
               (enc (tryBothSecond self.options) self.format self.data).length
            then enc (tryBothFirst self.options) self.format self.data
            else enc (tryBothSecond self.options) self.format self.data),
       { self with options := tryBothSecond self.options, flushed := true },
       [⟨tryBothFirst self.options, self.format, self.data⟩,
        ⟨tryBothSecond self.options, self.format, self.data⟩]) ∧
    (if (enc (tryBothFirst self.options) self.format self.data).length <
        (enc (tryBothSecond self.options) self.format self.data).length
     then enc (tryBothFirst self.options) self.format self.data
     else enc (tryBothSecond self.options) self.format self.data).length =
      min (enc (tryBothFirst self.options) self.format self.data).length
        (enc (tryBothSecond self.options) self.format self.data).length := by
  obtain ⟨fmt, o, dat, fl⟩ := self
  obtain ⟨ov, oi, obs, obl, om⟩ := o
  simp only at hfl hbs
  subst hfl
  subst hbs
  constructor
  · by_cases h :
      (enc ⟨ov, oi, 1, 0, om⟩ fmt dat).length <
        (enc ⟨ov, oi, 1, 1, om⟩ fmt dat).length <;>
      simp [Compressor_flush, tryBothFirst, tryBothSecond, h]
  · by_cases h :
      (enc ⟨ov, oi, 1, 0, om⟩ fmt dat).length <
        (enc ⟨ov, oi, 1, 1, om⟩ fmt dat).length
    · simp [tryBothFirst, tryBothSecond, h, Nat.min_eq_left h.le]
    · simp [tryBothFirst, tryBothSecond, h,
        Nat.min_eq_right (Nat.le_of_not_lt h)]

/-- C3 witness: the tie scenario, where flush returns the second trial
result and records both encoder invocations. -/
theorem C3_try_both_witness :
    Compressor_flush tryBothTieEnc tryBothTieCompressor =
      (.ok [1],
       { tryBothTieCompressor with
           options := tryBothSecond tryBothTieCompressor.options
           flushed := true },
       [⟨tryBothFirst tryBothTieCompressor.options, 2, [5]⟩,
        ⟨tryBothSecond tryBothTieCompressor.options, 2, [5]⟩]) := by
  have h := C3_try_both tryBothTieEnc tryBothTieCompressor
    (by decide) (by decide)
  revert h
  decide

/-- C6 counterexample: with a pending chunk, a finalize whose host buffer
acquisition fails — so the call fails before any encoding happened — still
sets the flushed flag and also discards the pending chunk, refuting the
claim that a failing call leaves the durable state unchanged with the
single exception of a finalize failing after encoding completed. -/
theorem C6_counterexample :
    (Deflater_flush encPartConst false pendingDeflater).1 =
      .error .bufferError ∧
    (Deflater_flush encPartConst false pendingDeflater).2.flushed = true ∧
    (Deflater_flush encPartConst false pendingDeflater).2.data = none ∧
    pendingDeflater.flushed = false ∧
    pendingDeflater.data = some [1, 2] := by
  decide

/-- C6 (amended): errors are surfaced synchronously as the failing call's
result; a call rejected by the finalized-flag check returns the state
unchanged; but a finalize that passes that check sets the finalized flag
even when it then fails before encoding, and a failing buffer acquisition
in an encoding call — append or finalize — additionally discards the
pending chunk, while the output buffer, bit pointer and options stay
unchanged. -/
theorem C6_error_state (encPart : DeflatePartFn) (self : Deflater)
    (input newdata : List Nat) (hfl : self.flushed = false)
    (hdata : self.data = some input) :
    Deflater_flush encPart false self =
      (.error .bufferError, { self with flushed := true, data := none }) ∧
    Deflater_compress encPart false self newdata =
      (.error .bufferError, { self with data := none }) := by
  obtain ⟨o, b, u, d, f⟩ := self
  simp only at hfl hdata
  subst hfl
  subst hdata
  simp [Deflater_flush, Deflater_compress, deflate_part]

/-- C6 witness: a pending-chunk session whose buffer acquisition fails. -/
theorem C6_error_state_witness :
    Deflater_flush encPartConst false pendingDeflater =
      (.error .bufferError,
       { pendingDeflater with flushed := true, data := none }) ∧
    Deflater_compress encPartConst false pendingDeflater [9] =
      (.error .bufferError, { pendingDeflater with data := none }) := by
  have h := C6_error_state encPartConst pendingDeflater [1, 2] [9]
    (by decide) (by decide)
  revert h
  decide

/-- C1 counterexample: a non-final encoding call with `pos = 2` that grows
the buffer to `[10, 20, 30]` (`outsize = 3`) returns `[20]`, the slice
`buffer[pos-1 .. outsize-1)`; the claim's slice `buffer[pos-1 .. outsize)`
is `[20, 30]`. -/
theorem C1_counterexample :
    (deflate_part boundaryPartEnc true boundaryDeflater false).1 =
      .ok [20] ∧
    byteSlice [10, 20, 30] 1 3 = [20, 30] ∧
    (Except.ok [20] : Except PyErr (List Nat)) ≠ .ok [20, 30] := by
  decide

/-- C1 (amended): for an encoding call with a pending chunk, with `pos`
the output-buffer length before the external encode and `outsize` its
length after: a final call returns the slice `buffer[pos-1 .. outsize)`,
which is `buffer[0 .. outsize)` when `pos = 0`; a non-final call returns
`buffer[pos-1 .. outsize-1)`, which is `buffer[0 .. outsize-1)` when
`pos = 0`.  (The claim's non-final `pos > 0` slice ran through `outsize`;
the code withholds the open boundary byte at `outsize-1` on every
non-final call.) -/
theorem C1_trim_rule (encPart : DeflatePartFn) (self : Deflater)
    (input : List Nat) (final : Bool) (hdata : self.data = some input) :
    (deflate_part encPart true self final).1 =
      .ok (byteSlice (encPart self.options 2 final input self.bp self.out).2
            (self.out.length - 1)
            (if final
             then (encPart self.options 2 final input self.bp self.out).2.length
             else
               (encPart self.options 2 final input self.bp self.out).2.length
                 - 1)) := by
  obtain ⟨o, b, u, d, f⟩ := self
  simp only at hdata
  subst hdata
  cases final with
  | false =>
    by_cases hp : u.length = 0
    · simp [deflate_part, byteSlice, hp]
    · have h1 : 1 ≤ u.length := Nat.one_le_iff_ne_zero.mpr hp
      have harith :
          ((encPart o 2 false input b u).2.length - 1) - (u.length - 1) =
            (encPart o 2 false input b u).2.length - u.length := by omega
      simp only [deflate_part, byteSlice, hp]
      simp [List.drop_take, harith]
  | true =>
    by_cases hp : u.length = 0
    · simp [deflate_part, byteSlice, hp]
    · have h1 : 1 ≤ u.length := Nat.one_le_iff_ne_zero.mpr hp
      have htake :
          ((encPart o 2 true input b u).2.drop (u.length - 1)).take
              ((encPart o 2 true input b u).2.length - u.length + 1) =
            (encPart o 2 true input b u).2.drop (u.length - 1) := by
        apply List.take_of_length_le
        simp [List.length_drop]
        omega
      simp only [deflate_part, byteSlice, hp]
      simp [List.take_length, htake]

/-- C1 witness: the non-final boundary scenario with `pos = 2`,
`outsize = 3`: the returned slice is `buffer[1 .. 2) = [20]`. -/
theorem C1_trim_rule_witness :
    (deflate_part boundaryPartEnc true boundaryDeflater false).1 =
      .ok (byteSlice [10, 20, 30] 1 2) := by
  have h := C1_trim_rule boundaryPartEnc boundaryDeflater [7] false
    (by decide)
  revert h
  decide

end Zopfli
